import Mathlib

/-!
Shallow embedding of the summarization browser extension's core
(orchestrator, delivery channel, summarization client, error taxonomy),
translated from background.ts, apiclient.ts, consts.tsx and popup.tsx.
JS strings are modelled as Lean strings (one Char per code unit for the
inputs of interest); machine effects (message sends, storage writes,
popup opening) are recorded in an explicit effect trace.
-/

/- ===== consts.tsx : CONSTANTS ===== -/

def MAX_PREVIEW_LENGTH : Nat := 100

def ELLIPSIS : String := "..."

namespace ErrorMessages

def API_KEY_MISSING : String :=
  "APIキーが設定されていません。拡張機能の設定でAPIキーを入力してください。"

def SUMMARY_EMPTY : String :=
  "要約結果が取得できませんでした。テキストの内容を確認してください。"

def API_ERROR : String := "Gemini APIでエラーが発生しました。"

def API_KEY_INVALID : String := "APIキーが無効です。正しいAPIキーを設定してください。"

def QUOTA_ERROR : String :=
  "APIの利用制限に達しました。しばらく時間をおいてから再試行してください。"

def NETWORK_ERROR : String :=
  "ネットワークエラーが発生しました。インターネット接続を確認してください。"

end ErrorMessages

/- ===== background.ts : truncateText ===== -/

/-- JS text.substring(0, n): the first n code units of the string. -/
def jsSubstringTo (s : String) (n : Nat) : String := String.mk (s.data.take n)

/-- background.ts truncateText: cut to MAX_PREVIEW_LENGTH and append ELLIPSIS
when the text is longer than the limit, else return it unchanged. -/
def truncateText (text : String) : String :=
  if text.length > MAX_PREVIEW_LENGTH
  then jsSubstringTo text MAX_PREVIEW_LENGTH ++ ELLIPSIS
  else text

theorem MAX_PREVIEW_LENGTH_eq : MAX_PREVIEW_LENGTH = 100 := rfl

theorem length_jsSubstringTo (s : String) (n : Nat) :
    (jsSubstringTo s n).length = min n s.length := by
  show (s.data.take n).length = min n s.data.length
  exact List.length_take n s.data

theorem truncateText_of_le (s : String) (h : ¬ s.length > MAX_PREVIEW_LENGTH) :
    truncateText s = s := by
  simp [truncateText, h]

theorem truncateText_of_gt (s : String) (h : s.length > MAX_PREVIEW_LENGTH) :
    truncateText s = jsSubstringTo s MAX_PREVIEW_LENGTH ++ ELLIPSIS := by
  simp [truncateText, h]

theorem length_truncateText_of_gt (s : String) (h : s.length > MAX_PREVIEW_LENGTH) :
    (truncateText s).length = 103 := by
  rw [truncateText_of_gt s h]
  have h1 : (jsSubstringTo s MAX_PREVIEW_LENGTH).length = 100 := by
    rw [length_jsSubstringTo, MAX_PREVIEW_LENGTH_eq]
    rw [MAX_PREVIEW_LENGTH_eq] at h
    omega
  rw [String.length_append, h1]
  rfl

/-- C7: for length at most 100 the text passes through unchanged; for longer
text the result is the first 100 characters followed by the 3-character
ellipsis marker, so the result has length exactly 103. -/
theorem C7_truncate_shape (s : String) :
    truncateText s
      = (if s.length ≤ 100 then s else jsSubstringTo s 100 ++ ELLIPSIS)
    ∧ (truncateText s).length = (if s.length ≤ 100 then s.length else 103) := by
  by_cases h : s.length ≤ 100
  · have h' : ¬ s.length > MAX_PREVIEW_LENGTH := by
      rw [MAX_PREVIEW_LENGTH_eq]; omega
    rw [truncateText_of_le s h']
    simp [h]
  · have h' : s.length > MAX_PREVIEW_LENGTH := by
      rw [MAX_PREVIEW_LENGTH_eq]; omega
    refine ⟨?_, ?_⟩
    · rw [truncateText_of_gt s h', MAX_PREVIEW_LENGTH_eq]
      simp [h]
    · rw [length_truncateText_of_gt s h']
      simp [h]

/-- C8: truncation is idempotent, marker included. -/
theorem C8_truncate_idempotent (s : String) :
    truncateText (truncateText s) = truncateText s := by
  by_cases h : s.length > MAX_PREVIEW_LENGTH
  · have hlen : (truncateText s).length = 103 := length_truncateText_of_gt s h
    have hgt : (truncateText s).length > MAX_PREVIEW_LENGTH := by
      rw [hlen, MAX_PREVIEW_LENGTH_eq]; omega
    have htake : (jsSubstringTo s MAX_PREVIEW_LENGTH).data.length = 100 := by
      have h1 := length_jsSubstringTo s MAX_PREVIEW_LENGTH
      rw [MAX_PREVIEW_LENGTH_eq] at h1 ⊢
      rw [MAX_PREVIEW_LENGTH_eq] at h
      show (jsSubstringTo s 100).length = 100
      rw [h1]; omega
    rw [truncateText_of_gt _ hgt, truncateText_of_gt s h]
    show String.mk (((jsSubstringTo s MAX_PREVIEW_LENGTH ++ ELLIPSIS).data).take
        MAX_PREVIEW_LENGTH) ++ ELLIPSIS = _
    have hdata : (jsSubstringTo s MAX_PREVIEW_LENGTH ++ ELLIPSIS).data
        = (jsSubstringTo s MAX_PREVIEW_LENGTH).data ++ ELLIPSIS.data := rfl
    rw [hdata, List.take_append_of_le_length (by rw [htake, MAX_PREVIEW_LENGTH_eq])]
    rw [List.take_of_length_le (by rw [htake, MAX_PREVIEW_LENGTH_eq])]
  · rw [truncateText_of_le s h, truncateText_of_le s h]

/- ===== apiclient.ts : thrown values and the ApiError taxonomy ===== -/

/-- A value thrown by the remote generateContent call: either a JS Error
instance (name, message, optional stack) or any other thrown value, whose
content the code never inspects. -/
inductive Thrown where
  | err (name message : String) (stack : Option String)
  | other (payload : String)
deriving DecidableEq

/-- consts.tsx ApiError: normalized error record produced by handleApiError. -/
structure ApiError where
  name : String
  message : String
  stack : Option String := none
  code : Option String := none
  status : Option Nat := none
deriving DecidableEq

/-- JS String.prototype.startsWith on char lists. -/
def listStartsWith : List Char → List Char → Bool
  | _, [] => true
  | [], _ :: _ => false
  | c :: cs, d :: ds => c == d && listStartsWith cs ds

/-- Leftmost substring occurrence test on char lists. -/
def listHasSub : List Char → List Char → Bool
  | [], sub => listStartsWith [] sub
  | c :: cs, sub => listStartsWith (c :: cs) sub || listHasSub cs sub

/-- JS s.includes(sub). -/
def jsIncludes (s sub : String) : Bool := listHasSub s.data sub.data

/-- apiclient.ts extractErrorCode: keyword classification of an error message. -/
def extractErrorCode (message : String) : Option String :=
  if jsIncludes message "API_KEY_INVALID" then some "API_KEY_INVALID"
  else if jsIncludes message "quota" then some "QUOTA_EXCEEDED"
  else if jsIncludes message "network" then some "NETWORK_ERROR"
  else if jsIncludes message "timeout" then some "TIMEOUT_ERROR"
  else none

/-- A character matched by the [:\s] class of the status regex. -/
def isStatusSep (c : Char) : Bool := c == ':' || c.isWhitespace

/-- The letters of the literal part of the status regex, lower case. -/
def statusChars : List Char := ['s', 't', 'a', 't', 'u', 's']

/-- If the list starts with a case-insensitive match of the word status,
return the remainder after it. -/
def statusTokenAt? (l : List Char) : Option (List Char) :=
  match l with
  | c1 :: c2 :: c3 :: c4 :: c5 :: c6 :: rest =>
    if [c1, c2, c3, c4, c5, c6].map Char.toLower = statusChars then some rest else none
  | _ => none

/-- parseInt on a run of decimal digits. -/
def digitsToNat (l : List Char) : Nat := l.foldl (fun n c => n * 10 + (c.toNat - 48)) 0

/-- Leftmost match of the regex used by extractErrorStatus: the word status
case-insensitively, then any run of colon-or-whitespace characters, then a
maximal nonempty run of digits, whose value is returned. -/
def scanStatus : List Char → Option Nat
  | [] => none
  | c :: cs =>
    match statusTokenAt? (c :: cs) with
    | some rest =>
      let ds := (rest.dropWhile isStatusSep).takeWhile Char.isDigit
      if ds.isEmpty then scanStatus cs else some (digitsToNat ds)
    | none => scanStatus cs

/-- apiclient.ts extractErrorStatus: first status[:\s]*(\d+) match, as a Nat. -/
def extractErrorStatus (message : String) : Option Nat := scanStatus message.data

/-- apiclient.ts handleApiError: convert any thrown value to an ApiError. -/
def handleApiError : Thrown → ApiError
  | .err n m st =>
    { name := n, message := m, stack := st,
      code := extractErrorCode m, status := extractErrorStatus m }
  | .other _ =>
    { name := "UnknownError", message := "An unknown error occurred",
      code := some "UNKNOWN_ERROR" }

/-- The Error thrown by generateContent itself when the response has no text. -/
def emptyResponseError : Thrown := .err "Error" "API response is empty or invalid" none

/-- apiclient.ts generateContent: the remote call either throws, or yields a
response whose text field may be missing or empty (both falsy in JS); a falsy
text raises the empty-response Error, which the same catch block converts, so
the method returns the text or an ApiError, never a raw exception. -/
def generateContent (call : Except Thrown (Option String)) : Except ApiError String :=
  match call with
  | .error t => .error (handleApiError t)
  | .ok none => .error (handleApiError emptyResponseError)
  | .ok (some txt) =>
    if txt = "" then .error (handleApiError emptyResponseError) else .ok txt

/- ===== background.ts : lifecycle messages and the effect trace ===== -/

/-- JS String.prototype.trim at whitespace-character level. -/
def jsTrim (s : String) : String :=
  String.mk (((s.data.dropWhile Char.isWhitespace).reverse.dropWhile
    Char.isWhitespace).reverse)

/-- The two type discriminators an ErrorMessage can carry (consts.tsx). -/
inductive ErrMsgType where
  | API_KEY_MISSING
  | SUMMARY_EMPTY
deriving DecidableEq

/-- consts.tsx MessageType: the three message shapes sent to the page UI. -/
inductive Message where
  | loading (summary originalText : String)
  | errMsg (etype : ErrMsgType) (message : String)
  | summaryComplete (summary originalText : String)
deriving DecidableEq

/-- The observable effects of one summarizeText run, in order. -/
inductive Effect where
  | sendToContent (m : Message) (delivered : Bool)
  | callClient (text : String)
  | openPopup
  | setPopupResult (summary originalText : String) (timestamp : Nat)
  | setPopupError (message : String) (timestamp : Nat)
deriving DecidableEq

/-- The ambient world one run interacts with: the stored credential, the
outcome the remote call would have, the success of each sendMessageToContent
call (indexed by call order), and the clock. -/
structure Env where
  userApiKey : Option String
  clientCall : Except Thrown (Option String)
  sendOk : Nat → Bool
  now : Nat

/-- JS truthiness test of the stored key: absent or empty means missing. -/
def keyMissing : Option String → Bool
  | none => true
  | some s => s = ""

/-- background.ts catch block: pick the user-facing message from the ApiError
code, falling back to substring tests on its message. -/
def chooseErrorMessage (e : ApiError) : String :=
  if e.code = some "API_KEY_INVALID" then ErrorMessages.API_KEY_INVALID
  else if e.code = some "QUOTA_EXCEEDED" then ErrorMessages.QUOTA_ERROR
  else if e.code = some "NETWORK_ERROR" then ErrorMessages.NETWORK_ERROR
  else if e.message = "" then ErrorMessages.API_ERROR
  else if jsIncludes e.message "API_KEY_INVALID" then ErrorMessages.API_KEY_INVALID
  else if jsIncludes e.message "quota" then ErrorMessages.QUOTA_ERROR
  else if jsIncludes e.message "network" then ErrorMessages.NETWORK_ERROR
  else ErrorMessages.API_ERROR

/-- background.ts showResultInPopup: open the popup and write the result slot. -/
def showResultInPopup (summary originalText : String) (now : Nat) : List Effect :=
  [.openPopup, .setPopupResult summary originalText now]

/-- background.ts showErrorInPopup: open the popup and write the error slot. -/
def showErrorInPopup (msg : String) (now : Nat) : List Effect :=
  [.openPopup, .setPopupError msg now]

/-- background.ts summarizeText: the orchestrator, as the effect trace it
produces against a given environment. -/
def summarizeText (text : String) (env : Env) : List Effect :=
  let loadingEff := Effect.sendToContent
    (.loading "読み込み中..." (truncateText text)) (env.sendOk 0)
  if keyMissing env.userApiKey then
    let errorSent := env.sendOk 1
    loadingEff
      :: .sendToContent (.errMsg .API_KEY_MISSING ErrorMessages.API_KEY_MISSING) errorSent
      :: (if errorSent then [] else showErrorInPopup ErrorMessages.API_KEY_MISSING env.now)
  else
    loadingEff :: .callClient text ::
      (match generateContent env.clientCall with
       | .ok summary =>
         if jsTrim summary = "" then
           let errorSent := env.sendOk 1
           Effect.sendToContent (.errMsg .SUMMARY_EMPTY ErrorMessages.SUMMARY_EMPTY) errorSent
             :: (if errorSent then [] else showErrorInPopup ErrorMessages.SUMMARY_EMPTY env.now)
         else
           let successSent := env.sendOk 1
           Effect.sendToContent (.summaryComplete summary (truncateText text)) successSent
             :: (if successSent then []
                 else showResultInPopup summary (truncateText text) env.now)
       | .error apiError =>
         let errorMessage := chooseErrorMessage apiError
         let errorSent := env.sendOk 1
         Effect.sendToContent (.errMsg .SUMMARY_EMPTY errorMessage) errorSent
           :: (if errorSent then [] else showErrorInPopup errorMessage env.now))

/- ===== observers over effect traces ===== -/

def Message.isLoadingMsg : Message → Bool
  | .loading _ _ => true
  | _ => false

def Message.isTerminalMsg : Message → Bool
  | .loading _ _ => false
  | _ => true

def loadingSendCount (tr : List Effect) : Nat :=
  tr.countP fun e => match e with
    | .sendToContent m _ => m.isLoadingMsg
    | _ => false

/-- The terminal lifecycle events a trace delivers to the page UI, with
their delivery outcome. -/
def terminalSends (tr : List Effect) : List (Message × Bool) :=
  tr.filterMap fun e => match e with
    | .sendToContent m d => if m.isTerminalMsg then some (m, d) else none
    | _ => none

def completeSendCount (tr : List Effect) : Nat :=
  tr.countP fun e => match e with
    | .sendToContent (.summaryComplete _ _) _ => true
    | _ => false

/-- The fallback-slot writes a trace performs, in order. -/
def slotWrites (tr : List Effect) : List Effect :=
  tr.filter fun e => match e with
    | .setPopupResult _ _ _ => true
    | .setPopupError _ _ => true
    | _ => false

def clientCallCount (tr : List Effect) : Nat :=
  tr.countP fun e => match e with
    | .callClient _ => true
    | _ => false

/-- The spec's fallback rule: result-slot write for a Complete event,
error-slot write for a Failed event, nothing for Loading. -/
def fallbackWriteFor (m : Message) (now : Nat) : List Effect :=
  match m with
  | .summaryComplete s o => [.setPopupResult s o now]
  | .errMsg _ msg => [.setPopupError msg now]
  | .loading _ _ => []

/- ===== spec-side error taxonomy ===== -/

/-- The spec's normalized ApiError kinds. -/
inductive ApiErrKind where
  | KeyInvalid
  | QuotaExceeded
  | NetworkError
  | Unknown
deriving DecidableEq

/-- The taxonomy kind an ApiError carries, read off its code field. -/
def kindOf (e : ApiError) : ApiErrKind :=
  if e.code = some "API_KEY_INVALID" then .KeyInvalid
  else if e.code = some "QUOTA_EXCEEDED" then .QuotaExceeded
  else if e.code = some "NETWORK_ERROR" then .NetworkError
  else .Unknown

/-- The spec's kind-to-user-message table: three dedicated messages and the
generic API-error message for everything else. -/
def specMessageFor : ApiErrKind → String
  | .KeyInvalid => ErrorMessages.API_KEY_INVALID
  | .QuotaExceeded => ErrorMessages.QUOTA_ERROR
  | .NetworkError => ErrorMessages.NETWORK_ERROR
  | .Unknown => ErrorMessages.API_ERROR

/- ===== helper lemmas about traces ===== -/

theorem isLoadingMsg_eq_false_of_terminal (m : Message) (h : m.isTerminalMsg = true) :
    m.isLoadingMsg = false := by
  cases m <;> simp_all [Message.isLoadingMsg, Message.isTerminalMsg]

theorem terminalSends_fallback (m : Message) (n : Nat) :
    terminalSends (fallbackWriteFor m n) = [] := by
  cases m <;> simp [terminalSends, fallbackWriteFor]

theorem loadingSendCount_fallback (m : Message) (n : Nat) :
    loadingSendCount (fallbackWriteFor m n) = 0 := by
  cases m <;> simp [loadingSendCount, fallbackWriteFor]

theorem slotWrites_fallback (m : Message) (n : Nat) :
    slotWrites (fallbackWriteFor m n) = fallbackWriteFor m n := by
  cases m <;> simp [slotWrites, fallbackWriteFor]

/-- Every run's trace has the same skeleton: the loading send first, then
possibly the client call, then exactly one terminal send using the second
send outcome, then, only when that send failed, the popup fallback for that
same terminal message. -/
theorem summarizeText_shape (text : String) (env : Env) :
    ∃ pre m,
      (pre = ([] : List Effect) ∨ pre = [Effect.callClient text])
      ∧ m.isTerminalMsg = true
      ∧ summarizeText text env
        = Effect.sendToContent (.loading "読み込み中..." (truncateText text)) (env.sendOk 0)
            :: pre
            ++ Effect.sendToContent m (env.sendOk 1)
            :: (if env.sendOk 1 then []
                else Effect.openPopup :: fallbackWriteFor m env.now) := by
  unfold summarizeText
  by_cases hk : keyMissing env.userApiKey
  · refine ⟨[], .errMsg .API_KEY_MISSING ErrorMessages.API_KEY_MISSING,
      Or.inl rfl, rfl, ?_⟩
    simp only [hk, if_true]
    rfl
  · simp only [hk, if_false, Bool.false_eq_true]
    cases hc : generateContent env.clientCall with
    | ok summary =>
      by_cases ht : jsTrim summary = ""
      · refine ⟨[Effect.callClient text], .errMsg .SUMMARY_EMPTY ErrorMessages.SUMMARY_EMPTY,
          Or.inr rfl, rfl, ?_⟩
        simp only [ht, if_true]
        rfl
      · refine ⟨[Effect.callClient text], .summaryComplete summary (truncateText text),
          Or.inr rfl, rfl, ?_⟩
        simp only [ht, if_false]
        rfl
    | error apiError =>
      refine ⟨[Effect.callClient text], .errMsg .SUMMARY_EMPTY (chooseErrorMessage apiError),
        Or.inr rfl, rfl, ?_⟩
      rfl

/-- C1: every run emits exactly one Loading event, as the very first effect,
followed by exactly one terminal event and no further lifecycle sends; the
orchestrator is a total function of its environment, so no failure escapes
the summarizeText boundary uncaught. -/
theorem C1_lifecycle (text : String) (env : Env) :
    ∃ rest,
      summarizeText text env
        = Effect.sendToContent (.loading "読み込み中..." (truncateText text)) (env.sendOk 0)
            :: rest
      ∧ loadingSendCount rest = 0
      ∧ (terminalSends rest).length = 1 := by
  obtain ⟨pre, m, hpre, hm, heq⟩ := summarizeText_shape text env
  refine ⟨pre ++ Effect.sendToContent m (env.sendOk 1)
      :: (if env.sendOk 1 then [] else Effect.openPopup :: fallbackWriteFor m env.now),
    heq, ?_, ?_⟩
  · rcases hpre with h | h <;> subst h <;> cases hs : env.sendOk 1 <;> cases m <;>
      simp_all [loadingSendCount, fallbackWriteFor, Message.isLoadingMsg,
        Message.isTerminalMsg, List.countP_cons, List.countP_append]
  · rcases hpre with h | h <;> subst h <;> cases hs : env.sendOk 1 <;> cases m <;>
      simp_all [terminalSends, fallbackWriteFor, Message.isTerminalMsg,
        List.filterMap_cons, List.filterMap_append]

theorem slotWrites_nil_of_sendOk :
    slotWrites ([] : List Effect) = [] := rfl

/-- C2: the run delivers exactly one terminal event; when that delivery
succeeds no fallback slot is written, and when it fails exactly the slot
matching the event's kind is written (result-slot for Complete, error-slot
for Failed), while a failed Loading delivery never produces a slot write. -/
theorem C2_fallback (text : String) (env : Env) :
    ∃ m d,
      terminalSends (summarizeText text env) = [(m, d)]
      ∧ slotWrites (summarizeText text env)
          = (if d then [] else fallbackWriteFor m env.now) := by
  obtain ⟨pre, m, hpre, hm, heq⟩ := summarizeText_shape text env
  refine ⟨m, env.sendOk 1, ?_, ?_⟩
  · rw [heq]
    rcases hpre with h | h <;> subst h <;> cases hs : env.sendOk 1 <;> cases m <;>
      simp_all [terminalSends, fallbackWriteFor, Message.isTerminalMsg,
        Message.isLoadingMsg, List.filterMap_cons, List.filterMap_append]
  · rw [heq]
    rcases hpre with h | h <;> subst h <;> cases hs : env.sendOk 1 <;> cases m <;>
      simp_all [slotWrites, fallbackWriteFor, List.filter_cons, List.filter_append]

/-- C3: with no stored credential the orchestrator performs no client call at
all and the unique terminal event is the ApiKeyMissing failure carrying the
fixed missing-key message. -/
theorem C3_missing_key (text : String) (env : Env)
    (h : keyMissing env.userApiKey = true) :
    clientCallCount (summarizeText text env) = 0
    ∧ terminalSends (summarizeText text env)
        = [(.errMsg .API_KEY_MISSING ErrorMessages.API_KEY_MISSING, env.sendOk 1)] := by
  unfold summarizeText
  cases hs : env.sendOk 1 <;>
    simp_all [clientCallCount, terminalSends, showErrorInPopup,
      Message.isTerminalMsg, Message.isLoadingMsg,
      List.countP_cons, List.filterMap_cons]

def envMissingKey : Env :=
  { userApiKey := none, clientCall := .error (.other "boom"),
    sendOk := fun _ => true, now := 0 }

theorem C3_missing_key_witness :
    clientCallCount (summarizeText "hello" envMissingKey) = 0
    ∧ terminalSends (summarizeText "hello" envMissingKey)
        = [(.errMsg .API_KEY_MISSING ErrorMessages.API_KEY_MISSING,
            envMissingKey.sendOk 1)] :=
  C3_missing_key "hello" envMissingKey rfl

/-- For every error normalized by handleApiError, the message chosen by the
orchestrator's catch block is exactly the spec's per-kind message. -/
theorem chooseErrorMessage_handleApiError (t : Thrown) :
    chooseErrorMessage (handleApiError t) = specMessageFor (kindOf (handleApiError t)) := by
  cases t with
  | other p => rfl
  | err n m st =>
    by_cases h1 : jsIncludes m "API_KEY_INVALID"
    · simp [handleApiError, extractErrorCode, chooseErrorMessage, kindOf,
        specMessageFor, h1]
    · by_cases h2 : jsIncludes m "quota"
      · simp [handleApiError, extractErrorCode, chooseErrorMessage, kindOf,
          specMessageFor, h1, h2]
      · by_cases h3 : jsIncludes m "network"
        · simp [handleApiError, extractErrorCode, chooseErrorMessage, kindOf,
            specMessageFor, h1, h2, h3]
        · by_cases h5 : m = ""
          · subst h5
            rfl
          · by_cases h4 : jsIncludes m "timeout" <;>
              simp [handleApiError, extractErrorCode, chooseErrorMessage, kindOf,
                specMessageFor, h1, h2, h3, h4, h5]

/-- C5: whenever the client call fails, the Orchestrator picks the message
assigned to the error's taxonomy kind (dedicated messages for KeyInvalid,
QuotaExceeded and NetworkError, the generic API-error message for anything
else) and the one terminal event is a Failed event whose type discriminator
is SUMMARY_EMPTY regardless of the chosen message. -/
theorem C5_client_failure (text : String) (env : Env) (t : Thrown)
    (hk : keyMissing env.userApiKey = false)
    (hc : env.clientCall = .error t) :
    terminalSends (summarizeText text env)
      = [(.errMsg .SUMMARY_EMPTY (specMessageFor (kindOf (handleApiError t))),
          env.sendOk 1)] := by
  unfold summarizeText
  rw [hc]
  cases hs : env.sendOk 1 <;>
    simp_all [generateContent, terminalSends, showErrorInPopup,
      chooseErrorMessage_handleApiError, Message.isTerminalMsg,
      Message.isLoadingMsg, List.filterMap_cons]

def thrownQuota : Thrown := .err "Error" "quota exceeded" none

def envQuota : Env :=
  { userApiKey := some "k", clientCall := .error thrownQuota,
    sendOk := fun _ => true, now := 0 }

theorem C5_client_failure_witness :
    terminalSends (summarizeText "t" envQuota)
      = [(.errMsg .SUMMARY_EMPTY (specMessageFor (kindOf (handleApiError thrownQuota))),
          envQuota.sendOk 1)] :=
  C5_client_failure "t" envQuota thrownQuota rfl rfl

/-- C6: with a credential present, a client success whose text trims to the
empty string terminates in the SUMMARY_EMPTY failure carrying the fixed
empty-summary message, and no Complete event is ever sent. -/
theorem C6_blank_summary (text : String) (env : Env) (s : String)
    (hk : keyMissing env.userApiKey = false)
    (hs : generateContent env.clientCall = .ok s)
    (hb : jsTrim s = "") :
    terminalSends (summarizeText text env)
      = [(.errMsg .SUMMARY_EMPTY ErrorMessages.SUMMARY_EMPTY, env.sendOk 1)]
    ∧ completeSendCount (summarizeText text env) = 0 := by
  unfold summarizeText
  rw [hs]
  cases hd : env.sendOk 1 <;>
    simp_all [terminalSends, completeSendCount, showErrorInPopup,
      Message.isTerminalMsg, Message.isLoadingMsg,
      List.filterMap_cons, List.countP_cons]

def envBlank : Env :=
  { userApiKey := some "k", clientCall := .ok (some "  "),
    sendOk := fun _ => true, now := 0 }

theorem C6_blank_summary_witness :
    terminalSends (summarizeText "t" envBlank)
      = [(.errMsg .SUMMARY_EMPTY ErrorMessages.SUMMARY_EMPTY, envBlank.sendOk 1)]
    ∧ completeSendCount (summarizeText "t" envBlank) = 0 :=
  C6_blank_summary "t" envBlank "  " rfl rfl rfl

/- ===== C4: the classification and the status regex ===== -/

/-- The declarative reading of the status[:\s]*(\d+) regex: somewhere in the
message the word status appears case-insensitively, followed by a possibly
empty run of colon-or-whitespace characters, followed by at least one digit. -/
def statusPattern (m : String) : Prop :=
  ∃ pre w mid d post,
    m.data = pre ++ w ++ mid ++ d ++ post
    ∧ w.map Char.toLower = statusChars
    ∧ (∀ c ∈ mid, isStatusSep c = true)
    ∧ d ≠ []
    ∧ (∀ c ∈ d, c.isDigit = true)

theorem statusTokenAt?_inv {l rest : List Char} (h : statusTokenAt? l = some rest) :
    ∃ w, l = w ++ rest ∧ w.map Char.toLower = statusChars := by
  rcases l with _ | ⟨c1, _ | ⟨c2, _ | ⟨c3, _ | ⟨c4, _ | ⟨c5, _ | ⟨c6, r⟩⟩⟩⟩⟩⟩ <;>
    simp [statusTokenAt?] at h
  obtain ⟨hcond, hr⟩ := h
  subst hr
  refine ⟨[c1, c2, c3, c4, c5, c6], rfl, ?_⟩
  simpa using hcond

/-- The definitional unfolding of scanStatus on a nonempty list. -/
theorem scanStatus_cons (c : Char) (cs : List Char) :
    scanStatus (c :: cs)
      = (match statusTokenAt? (c :: cs) with
         | some rest =>
           if ((rest.dropWhile isStatusSep).takeWhile Char.isDigit).isEmpty
           then scanStatus cs
           else some (digitsToNat ((rest.dropWhile isStatusSep).takeWhile Char.isDigit))
         | none => scanStatus cs) := by
  rw [scanStatus]

theorem scanStatus_cons_some {c : Char} {cs rest : List Char}
    (hst : statusTokenAt? (c :: cs) = some rest) :
    scanStatus (c :: cs)
      = (if ((rest.dropWhile isStatusSep).takeWhile Char.isDigit).isEmpty
         then scanStatus cs
         else some (digitsToNat ((rest.dropWhile isStatusSep).takeWhile Char.isDigit))) := by
  rw [scanStatus_cons, hst]

theorem scanStatus_cons_none {c : Char} {cs : List Char}
    (hst : statusTokenAt? (c :: cs) = none) :
    scanStatus (c :: cs) = scanStatus cs := by
  rw [scanStatus_cons, hst]

theorem isStatusSep_eq_false_of_isDigit (c : Char) (h : c.isDigit = true) :
    isStatusSep c = false := by
  rcases hsep : isStatusSep c with _ | _
  · rfl
  · exfalso
    simp [isStatusSep, Char.isWhitespace] at hsep
    have hd : c = ':' ∨ c = ' ' ∨ c = '\t' ∨ c = '\x0d' ∨ c = '\n' := by tauto
    rcases hd with h1 | h1 | h1 | h1 | h1 <;> subst h1 <;> exact absurd h (by decide)

theorem dropWhile_append_forall (p : Char → Bool) (a l : List Char)
    (h : ∀ c ∈ a, p c = true) :
    List.dropWhile p (a ++ l) = List.dropWhile p l := by
  induction a with
  | nil => simp
  | cons x xs ih =>
    simp only [List.cons_append, List.dropWhile_cons]
    rw [if_pos (h x (by simp))]
    exact ih fun c hc => h c (by simp [hc])

theorem pattern_of_scanStatus {l : List Char} (h : (scanStatus l).isSome = true) :
    ∃ pre w mid d post,
      l = pre ++ w ++ mid ++ d ++ post
      ∧ w.map Char.toLower = statusChars
      ∧ (∀ c ∈ mid, isStatusSep c = true)
      ∧ d ≠ []
      ∧ (∀ c ∈ d, c.isDigit = true) := by
  induction l with
  | nil => simp [scanStatus] at h
  | cons c cs ih =>
    cases hst : statusTokenAt? (c :: cs) with
    | none =>
      rw [scanStatus_cons_none hst] at h
      obtain ⟨pre, w, mid, d, post, hdec, hw, hmid, hd, hdig⟩ := ih h
      exact ⟨c :: pre, w, mid, d, post, by simp [hdec], hw, hmid, hd, hdig⟩
    | some rest =>
      rw [scanStatus_cons_some hst] at h
      by_cases hds : ((rest.dropWhile isStatusSep).takeWhile Char.isDigit).isEmpty
      · rw [if_pos hds] at h
        obtain ⟨pre, w, mid, d, post, hdec, hw, hmid, hd, hdig⟩ := ih h
        exact ⟨c :: pre, w, mid, d, post, by simp [hdec], hw, hmid, hd, hdig⟩
      · obtain ⟨w, hlw, hw⟩ := statusTokenAt?_inv hst
        have h1 : rest.takeWhile isStatusSep ++ rest.dropWhile isStatusSep = rest :=
          List.takeWhile_append_dropWhile isStatusSep rest
        have h2 : (rest.dropWhile isStatusSep).takeWhile Char.isDigit
            ++ (rest.dropWhile isStatusSep).dropWhile Char.isDigit
            = rest.dropWhile isStatusSep :=
          List.takeWhile_append_dropWhile Char.isDigit (rest.dropWhile isStatusSep)
        have hr : rest.takeWhile isStatusSep
            ++ ((rest.dropWhile isStatusSep).takeWhile Char.isDigit
                ++ (rest.dropWhile isStatusSep).dropWhile Char.isDigit) = rest := by
          rw [h2]
          exact h1
        refine ⟨[], w, rest.takeWhile isStatusSep,
          (rest.dropWhile isStatusSep).takeWhile Char.isDigit,
          (rest.dropWhile isStatusSep).dropWhile Char.isDigit, ?_, hw, ?_, ?_, ?_⟩
        · rw [hlw]
          conv_lhs => rw [← hr]
          simp [List.append_assoc]
        · intro x hx
          exact List.mem_takeWhile_imp hx
        · intro hempty
          apply hds
          simp [hempty]
        · intro x hx
          exact List.mem_takeWhile_imp hx

theorem scanStatus_isSome_of_pattern :
    ∀ (pre w mid d post : List Char),
      w.map Char.toLower = statusChars →
      (∀ c ∈ mid, isStatusSep c = true) →
      d ≠ [] →
      (∀ c ∈ d, c.isDigit = true) →
      (scanStatus (pre ++ w ++ mid ++ d ++ post)).isSome = true := by
  intro pre
  induction pre with
  | nil =>
    intro w mid d post hw hmid hd hdig
    have hw6 : w.length = 6 := by
      have hlen := congrArg List.length hw
      simpa [statusChars] using hlen
    rcases w with _ | ⟨c1, _ | ⟨c2, _ | ⟨c3, _ | ⟨c4, _ | ⟨c5, _ | ⟨c6, wrest⟩⟩⟩⟩⟩⟩ <;>
      simp at hw6
    subst hw6
    rcases d with _ | ⟨dh, dt⟩
    · exact absurd rfl hd
    have hdh : dh.isDigit = true := hdig dh (by simp)
    simp only [List.nil_append, List.cons_append]
    have hst : statusTokenAt?
        (c1 :: c2 :: c3 :: c4 :: c5 :: c6 :: (mid ++ dh :: dt ++ post))
        = some (mid ++ dh :: dt ++ post) := by
      simp only [statusTokenAt?]
      rw [if_pos (by simpa using hw)]
    have hdrop : (mid ++ dh :: dt ++ post).dropWhile isStatusSep
        = dh :: (dt ++ post) := by
      rw [List.append_assoc]
      rw [dropWhile_append_forall isStatusSep mid (dh :: dt ++ post) hmid]
      rw [List.cons_append, List.dropWhile_cons]
      rw [if_neg (by simp [isStatusSep_eq_false_of_isDigit dh hdh])]
    rw [scanStatus_cons_some hst, hdrop]
    simp [List.takeWhile_cons, hdh]
  | cons c pre' ih =>
    intro w mid d post hw hmid hd hdig
    have hrec := ih w mid d post hw hmid hd hdig
    simp only [List.cons_append]
    cases hst : statusTokenAt? (c :: (pre' ++ w ++ mid ++ d ++ post)) with
    | none =>
      rw [scanStatus_cons_none hst]
      exact hrec
    | some rest =>
      rw [scanStatus_cons_some hst]
      by_cases hds : ((rest.dropWhile isStatusSep).takeWhile Char.isDigit).isEmpty
      · rw [if_pos hds]
        exact hrec
      · rw [if_neg hds]
        rfl

theorem extractErrorStatus_isSome_iff (m : String) :
    (extractErrorStatus m).isSome = true ↔ statusPattern m := by
  constructor
  · intro h
    exact pattern_of_scanStatus h
  · rintro ⟨pre, w, mid, d, post, hdec, hw, hmid, hd, hdig⟩
    unfold extractErrorStatus
    rw [hdec]
    exact scanStatus_isSome_of_pattern pre w mid d post hw hmid hd hdig

/-- C4 counterexample: the message "Request timeout" contains none of the
three substrings named by the claim, so the claim predicts no extracted
code, yet the classifier attaches the code TIMEOUT_ERROR. -/
theorem C4_counterexample :
    jsIncludes "Request timeout" "API_KEY_INVALID" = false
    ∧ jsIncludes "Request timeout" "quota" = false
    ∧ jsIncludes "Request timeout" "network" = false
    ∧ (handleApiError (.err "Error" "Request timeout" none)).code
        = some "TIMEOUT_ERROR" := by
  refine ⟨by decide, by decide, by decide, ?_⟩
  show extractErrorCode "Request timeout" = some "TIMEOUT_ERROR"
  decide

/-- C4 (amended): every thrown Error is classified by substring search in
its message, in order API_KEY_INVALID, quota, network, then timeout, any
other message getting no code; at the taxonomy level the timeout code still
counts as Unknown, so the kind classification matches the spec's three
dedicated kinds plus Unknown; the numeric status is attached exactly when
the message matches the status[:\s]*(\d+) pattern; and every non-Error
thrown value is normalized to the fixed unknown ApiError. -/
theorem C4_classification (n m : String) (st : Option String) (p : String) :
    (handleApiError (.err n m st)).code
      = (if jsIncludes m "API_KEY_INVALID" then some "API_KEY_INVALID"
         else if jsIncludes m "quota" then some "QUOTA_EXCEEDED"
         else if jsIncludes m "network" then some "NETWORK_ERROR"
         else if jsIncludes m "timeout" then some "TIMEOUT_ERROR"
         else none)
    ∧ ((handleApiError (.err n m st)).status.isSome = true ↔ statusPattern m)
    ∧ kindOf (handleApiError (.err n m st))
        = (if jsIncludes m "API_KEY_INVALID" then .KeyInvalid
           else if jsIncludes m "quota" then .QuotaExceeded
           else if jsIncludes m "network" then .NetworkError
           else .Unknown)
    ∧ handleApiError (.other p)
        = { name := "UnknownError", message := "An unknown error occurred",
            code := some "UNKNOWN_ERROR" } := by
  refine ⟨rfl, ?_, ?_, rfl⟩
  · show (extractErrorStatus m).isSome = true ↔ statusPattern m
    exact extractErrorStatus_isSome_iff m
  · by_cases h1 : jsIncludes m "API_KEY_INVALID"
    · simp [handleApiError, extractErrorCode, kindOf, h1]
    · by_cases h2 : jsIncludes m "quota"
      · simp [handleApiError, extractErrorCode, kindOf, h1, h2]
      · by_cases h3 : jsIncludes m "network"
        · simp [handleApiError, extractErrorCode, kindOf, h1, h2, h3]
        · by_cases h4 : jsIncludes m "timeout" <;>
            simp [handleApiError, extractErrorCode, kindOf, h1, h2, h3, h4]

/-- C10: a non-Error thrown value is replaced wholesale by the fixed unknown
ApiError, with no status and no stack, its own content discarded. -/
theorem C10_non_error_thrown (p : String) :
    handleApiError (.other p)
      = { name := "UnknownError", message := "An unknown error occurred",
          stack := none, code := some "UNKNOWN_ERROR", status := none } := rfl

/- ===== popup.tsx : fallback-slot pickup ===== -/

/-- The payload showResultInPopup stores in the result slot. -/
structure ResultPayload where
  summary : String
  originalText : String
  timestamp : Nat
deriving DecidableEq

/-- The payload showErrorInPopup stores in the error slot. -/
structure ErrorPayload where
  message : String
  timestamp : Nat
deriving DecidableEq

/-- The two ephemeral fallback slots of the credential store. -/
structure FallbackSlots where
  popupResult : Option ResultPayload
  popupError : Option ErrorPayload
deriving DecidableEq

/-- popup.tsx mount effect: read both slots; when a payload is present,
capture it for display (the whole record for the result slot, the message
field for the error slot) and remove that slot from storage. -/
def popupOpenFallbackRead (st : FallbackSlots) :
    (Option ResultPayload × Option String) × FallbackSlots :=
  let shownResult := st.popupResult
  let shownError := st.popupError.map ErrorPayload.message
  let st1 := match st.popupResult with
    | some _ => { st with popupResult := none }
    | none => st
  let st2 := match st1.popupError with
    | some _ => { st1 with popupError := none }
    | none => st1
  ((shownResult, shownError), st2)

/-- C9: opening the popup yields whatever the slots held and clears them, so
a second sequential popup-open read yields absent in both slots. -/
theorem C9_read_once (st : FallbackSlots) :
    (popupOpenFallbackRead st).1
      = (st.popupResult, st.popupError.map ErrorPayload.message)
    ∧ (popupOpenFallbackRead (popupOpenFallbackRead st).2).1 = (none, none) := by
  obtain ⟨r, e⟩ := st
  cases r <;> cases e <;> simp [popupOpenFallbackRead]
